import Mathlib

/-!
Shallow embedding of the cludz-sdk TypeScript client, covering the parts of
the code that the specification's claims are about:

* the task-polling loop `Tasks.waitFor` (src/modules/tasks.ts),
* the request dispatcher `Cludz._request` (src/index.ts): query-parameter
  assembly and response interpretation,
* the constructors of the main client (`Cludz`) and of the storage client
  (`Storage`, src/modules/storage.ts),
* the source-resolution helpers `Image.resolveImage` (src/modules/image.ts)
  and `Storage.resolveFile` (src/modules/storage.ts).

JavaScript `string | null` / optional fields are embedded as `Option String`;
the JS truthiness-based fallback operator `a || b` on strings (which falls
through on both `null`/`undefined` and on the empty string) is embedded as
`jsOr`.  Machine time in `waitFor` is modelled abstractly: each call to
`get` is instantaneous and each `setTimeout(interval)` advances the clock by
exactly `interval` milliseconds, so the elapsed time `Date.now() - start`
observed by the loop guard before the `i`-th poll is `i * interval`.
-/

namespace CludzSDK

/-- JS string fallback `v || fallback` for a nullable string `v`: `null`,
`undefined` and the empty string are all falsy, anything else is returned
as-is. -/
def jsOr (v : Option String) (fallback : String) : String :=
  match v with
  | some s => if s = "" then fallback else s
  | none => fallback

/-- The task status union `"Pending" | "Processing" | "Completed" | "Failed"`
from src/types.ts. -/
inductive TaskStatus
  | pending
  | processing
  | completed
  | failed
deriving DecidableEq, Repr

/-- The `TaskState<T>` record from src/types.ts.  `message` and `error` are
`string | null` in the source, hence `Option String` here; `data` is
`T | null`. -/
structure TaskState (α : Type) where
  id : String
  user_id : Option String
  status : TaskStatus
  progress : Int
  message : Option String
  error : Option String
  data : Option α
  created_at : String
  updated_at : String
deriving DecidableEq, Repr

/-- The three ways `Tasks.waitFor` can end: return a snapshot, throw the
failure error, or throw the timeout error. -/
inductive WaitOutcome (α : Type)
  | completed (t : TaskState α)
  | failed (msg : String)
  | timedOut (msg : String)
deriving DecidableEq, Repr

/-- The message of the error thrown on a `Failed` snapshot:
`task.message || task.error || "Task failed"` (src/modules/tasks.ts). -/
def failedTaskMessage {α : Type} (t : TaskState α) : String :=
  jsOr t.message (jsOr t.error "Task failed")

/-- The message of the timeout error:
`` `Task timeout after ${timeout}ms` `` (src/modules/tasks.ts). -/
def timeoutMessage (timeout : Int) : String :=
  "Task timeout after " ++ toString timeout ++ "ms"

/-- One execution of the `while` loop of `Tasks.waitFor`
(src/modules/tasks.ts), starting just before the guard of iteration `i`.

`polls j` is the snapshot that the `j`-th call to `Tasks.get` returns
(the task state is owned by the remote server, so the sequence of observed
snapshots is an arbitrary parameter).  The elapsed time when the guard of
iteration `i` is evaluated is `i * interval` (see the module docstring),
so the guard `Date.now() - start < timeout` reads `i * interval < timeout`.

`fuel` bounds the number of iterations the model is willing to unfold:
`none` means the loop did not terminate within `fuel` iterations (the real
loop can in fact run without bound, e.g. with `interval = 0` and a task
that never leaves `Pending`).  On termination the result carries the
outcome together with the total number of calls to `Tasks.get` that were
made. -/
def waitForAux {α : Type} (polls : Nat → TaskState α) (interval timeout : Int) :
    Nat → Nat → Option (WaitOutcome α × Nat)
  | 0, _ => none
  | fuel + 1, i =>
    if (i : Int) * interval < timeout then
      let task := polls i
      if task.status = TaskStatus.completed then
        some (WaitOutcome.completed task, i + 1)
      else if task.status = TaskStatus.failed then
        some (WaitOutcome.failed (failedTaskMessage task), i + 1)
      else
        waitForAux polls interval timeout fuel (i + 1)
    else
      some (WaitOutcome.timedOut (timeoutMessage timeout), i)

/-- The whole of `Tasks.waitFor(id, interval, timeout)` run against the snapshot sequence
`polls`: the loop of `waitForAux` started at iteration 0. -/
def waitFor {α : Type} (polls : Nat → TaskState α) (interval timeout : Int)
    (fuel : Nat) : Option (WaitOutcome α × Nat) :=
  waitForAux polls interval timeout fuel 0

/-- A concrete snapshot used by witnesses: a task that is still `Pending`. -/
def pendingTask : TaskState Unit :=
  { id := "t1", user_id := none, status := TaskStatus.pending, progress := 0,
    message := none, error := none, data := none,
    created_at := "2025-01-01", updated_at := "2025-01-01" }

/-- A concrete snapshot used by witnesses: the task is `Processing`. -/
def processingTask : TaskState Unit :=
  { pendingTask with
    status := TaskStatus.processing, progress := 50, updated_at := "2025-01-02" }

/-- A concrete snapshot used by witnesses: the task has `Completed`. -/
def completedTask : TaskState Unit :=
  { pendingTask with
    status := TaskStatus.completed, progress := 100, message := some "done",
    updated_at := "2025-01-03" }

/-- A concrete snapshot sequence Pending → Processing → Completed. -/
def samplePolls : Nat → TaskState Unit :=
  fun i => if i = 0 then pendingTask else if i = 1 then processingTask else completedTask

/-- Running the loop past `d` non-terminal iterations: if the guard holds and
the snapshot is neither `Completed` nor `Failed` at each of the iterations
`i, …, i + d - 1`, the loop reaches iteration `i + d` with `d` units of fuel
spent. -/
theorem waitForAux_skip {α : Type} (polls : Nat → TaskState α) (interval timeout : Int) :
    ∀ (d i fuel : Nat), d ≤ fuel →
    (∀ j, j < d → (((i + j : Nat) : Int) * interval < timeout
       ∧ (polls (i + j)).status ≠ TaskStatus.completed
       ∧ (polls (i + j)).status ≠ TaskStatus.failed)) →
    waitForAux polls interval timeout fuel i
      = waitForAux polls interval timeout (fuel - d) (i + d) := by
  intro d
  induction d with
  | zero => intro i fuel _ _; simp
  | succ d ih =>
    intro i fuel hd hj
    match fuel, hd with
    | f + 1, hd =>
      have h0 := hj 0 (Nat.succ_pos d)
      rw [Nat.add_zero] at h0
      have hstep : waitForAux polls interval timeout (f + 1) i
          = waitForAux polls interval timeout f (i + 1) := by
        simp only [waitForAux]
        rw [if_pos h0.1, if_neg h0.2.1, if_neg h0.2.2]
      rw [hstep,
        ih (i + 1) f (Nat.succ_le_succ_iff.mp hd) (fun j hjd => by
          have h := hj (j + 1) (Nat.succ_lt_succ hjd)
          rwa [show i + (j + 1) = i + 1 + j by omega] at h),
        Nat.succ_sub_succ, show i + 1 + d = i + (d + 1) by omega]

/-- C1: when `waitFor` observes a `Completed` snapshot at poll `k` (having
observed only non-terminal snapshots before, while the timeout has not
elapsed), it returns that snapshot as its successful result, having made
exactly `k + 1` calls to `get` — none after the `Completed` observation. -/
theorem waitFor_completed_returns_snapshot {α : Type}
    (polls : Nat → TaskState α) (interval timeout : Int) (k fuel : Nat)
    (hfuel : k < fuel)
    (hguard : ∀ j, j ≤ k → ((j : Nat) : Int) * interval < timeout)
    (hprev : ∀ j, j < k → (polls j).status ≠ TaskStatus.completed
        ∧ (polls j).status ≠ TaskStatus.failed)
    (hk : (polls k).status = TaskStatus.completed) :
    waitFor polls interval timeout fuel
      = some (WaitOutcome.completed (polls k), k + 1) := by
  unfold waitFor
  rw [waitForAux_skip polls interval timeout k 0 fuel (le_of_lt hfuel)
      (fun j hj => by
        rw [Nat.zero_add]
        exact ⟨hguard j (le_of_lt hj), (hprev j hj).1, (hprev j hj).2⟩)]
  obtain ⟨m, hm⟩ : ∃ m, fuel - k = m + 1 := ⟨fuel - k - 1, by omega⟩
  rw [Nat.zero_add, hm]
  simp only [waitForAux]
  rw [if_pos (hguard k le_rfl), if_pos hk]

/-- C1 witness: polling the concrete sequence Pending → Processing →
Completed returns the `Completed` snapshot after exactly three `get` calls. -/
theorem waitFor_completed_returns_snapshot_witness :
    waitFor samplePolls 1000 60000 5
      = some (WaitOutcome.completed (samplePolls 2), 3) :=
  waitFor_completed_returns_snapshot samplePolls 1000 60000 2 5
    (by omega)
    (fun j hj => by omega)
    (fun j hj => by
      have : j = 0 ∨ j = 1 := by omega
      rcases this with rfl | rfl <;> exact ⟨by decide, by decide⟩)
    (by decide)

/-- The failure-error message exactly as the original claim states it: "the
snapshot's message field if present, else its error field, else the generic
string Task failed".  Present means the nullable field is non-null; this
definition follows the claim's words, to be compared against the code's
`failedTaskMessage`. -/
def claimedFailedMessage {α : Type} (t : TaskState α) : String :=
  match t.message with
  | some m => m
  | none =>
    match t.error with
    | some e => e
    | none => "Task failed"

/-- The failure-error message as amended: the snapshot's `message` field if
present and non-empty, else its `error` field if present and non-empty, else
the generic string `"Task failed"`. -/
def specFailedMessage {α : Type} (t : TaskState α) : String :=
  match t.message with
  | some m =>
    if m ≠ "" then m
    else
      match t.error with
      | some e => if e ≠ "" then e else "Task failed"
      | none => "Task failed"
  | none =>
    match t.error with
    | some e => if e ≠ "" then e else "Task failed"
    | none => "Task failed"

/-- The code's `task.message || task.error || "Task failed"` computes the
amended-spec message. -/
theorem failedTaskMessage_eq_spec {α : Type} (t : TaskState α) :
    failedTaskMessage t = specFailedMessage t := by
  unfold failedTaskMessage specFailedMessage jsOr
  cases t.message with
  | none => cases t.error with
    | none => rfl
    | some e => by_cases he : e = "" <;> simp [he]
  | some m =>
    by_cases hm : m = ""
    · cases t.error with
      | none => simp [hm]
      | some e => by_cases he : e = "" <;> simp [hm, he]
    · simp [hm]

/-- A `Failed` snapshot whose `message` field is present but empty: the code
falls through to the `error` field, while the claim as stated would use the
(empty) `message` field. -/
def emptyMessageFailedTask : TaskState Unit :=
  { pendingTask with
    status := TaskStatus.failed, message := some "", error := some "boom" }

/-- C2 counterexample: on a `Failed` snapshot with `message = some ""` and
`error = some "boom"`, `waitFor` throws with message `"boom"` (JS `||` skips
the empty string), while the claim as stated predicts the present `message`
field, i.e. `""`. -/
theorem waitFor_failed_message_cex :
    emptyMessageFailedTask.message = some ""
    ∧ waitFor (fun _ => emptyMessageFailedTask) 1000 60000 5
        = some (WaitOutcome.failed "boom", 1)
    ∧ claimedFailedMessage emptyMessageFailedTask = ""
    ∧ ("boom" : String) ≠ "" := by
  refine ⟨rfl, by decide, rfl, by decide⟩

/-- C2 amended: when `waitFor` observes a `Failed` snapshot at poll `k`, it
fails immediately (after `k + 1` calls to `get`) with an error whose message
is the snapshot's `message` field if present and non-empty, else its `error`
field if present and non-empty, else the generic string `"Task failed"`. -/
theorem waitFor_failed_throws_message {α : Type}
    (polls : Nat → TaskState α) (interval timeout : Int) (k fuel : Nat)
    (hfuel : k < fuel)
    (hguard : ∀ j, j ≤ k → ((j : Nat) : Int) * interval < timeout)
    (hprev : ∀ j, j < k → (polls j).status ≠ TaskStatus.completed
        ∧ (polls j).status ≠ TaskStatus.failed)
    (hk : (polls k).status = TaskStatus.failed) :
    waitFor polls interval timeout fuel
      = some (WaitOutcome.failed (specFailedMessage (polls k)), k + 1) := by
  unfold waitFor
  rw [waitForAux_skip polls interval timeout k 0 fuel (le_of_lt hfuel)
      (fun j hj => by
        rw [Nat.zero_add]
        exact ⟨hguard j (le_of_lt hj), (hprev j hj).1, (hprev j hj).2⟩)]
  obtain ⟨m, hm⟩ : ∃ m, fuel - k = m + 1 := ⟨fuel - k - 1, by omega⟩
  rw [Nat.zero_add, hm]
  simp only [waitForAux]
  rw [if_pos (hguard k le_rfl), if_neg (by rw [hk]; decide), if_pos hk,
    failedTaskMessage_eq_spec]

/-- A concrete `Failed` snapshot carrying a remote-provided message. -/
def failedTaskWithMessage : TaskState Unit :=
  { pendingTask with
    status := TaskStatus.failed, message := some "download crashed" }

/-- C2 witness: polling a task that reports `Failed` with a non-empty message
throws that message after a single `get`. -/
theorem waitFor_failed_throws_message_witness :
    waitFor (fun _ => failedTaskWithMessage) 1000 60000 5
      = some (WaitOutcome.failed (specFailedMessage failedTaskWithMessage), 1) :=
  waitFor_failed_throws_message (fun _ => failedTaskWithMessage) 1000 60000 0 5
    (by omega)
    (fun j hj => by omega)
    (fun j hj => absurd hj (by omega))
    (by decide)

/-- Every terminating run of the loop body ends in one of exactly three
shapes, whatever iteration it starts at. -/
theorem waitForAux_exit_cases {α : Type}
    (polls : Nat → TaskState α) (interval timeout : Int) :
    ∀ (fuel i : Nat) (r : WaitOutcome α) (n : Nat),
    waitForAux polls interval timeout fuel i = some (r, n) →
    ((r = WaitOutcome.completed (polls (n - 1))
        ∧ (polls (n - 1)).status = TaskStatus.completed)
     ∨ (r = WaitOutcome.failed (failedTaskMessage (polls (n - 1)))
        ∧ (polls (n - 1)).status = TaskStatus.failed)
     ∨ (r = WaitOutcome.timedOut (timeoutMessage timeout)
        ∧ timeout ≤ ((n : Nat) : Int) * interval)) := by
  intro fuel
  induction fuel with
  | zero => intro i r n h; simp [waitForAux] at h
  | succ f ih =>
    intro i r n h
    simp only [waitForAux] at h
    by_cases hg : ((i : Nat) : Int) * interval < timeout
    · rw [if_pos hg] at h
      by_cases hc : (polls i).status = TaskStatus.completed
      · rw [if_pos hc] at h
        obtain ⟨rfl, rfl⟩ : WaitOutcome.completed (polls i) = r ∧ i + 1 = n := by
          simpa [eq_comm] using h
        left
        exact ⟨by simp, by simpa using hc⟩
      · rw [if_neg hc] at h
        by_cases hf : (polls i).status = TaskStatus.failed
        · rw [if_pos hf] at h
          obtain ⟨rfl, rfl⟩ :
              WaitOutcome.failed (failedTaskMessage (polls i)) = r ∧ i + 1 = n := by
            simpa [eq_comm] using h
          right; left
          exact ⟨by simp, by simpa using hf⟩
        · rw [if_neg hf] at h
          exact ih (i + 1) r n h
    · rw [if_neg hg] at h
      obtain ⟨rfl, rfl⟩ : WaitOutcome.timedOut (timeoutMessage timeout) = r ∧ i = n := by
        simpa [eq_comm] using h
      right; right
      exact ⟨rfl, le_of_not_lt hg⟩

/-- C3: a terminating execution of `waitFor` ends in exactly one of three
ways: it returns the `Completed` snapshot it last polled, it throws the
failure error for the `Failed` snapshot it last polled, or it throws the
timeout error naming the configured timeout — the latter only once the
elapsed time has reached or exceeded `timeout` milliseconds.  There is no
other way out of the polling loop. -/
theorem waitFor_only_three_exits {α : Type}
    (polls : Nat → TaskState α) (interval timeout : Int) (fuel : Nat)
    (r : WaitOutcome α) (n : Nat)
    (h : waitFor polls interval timeout fuel = some (r, n)) :
    ((r = WaitOutcome.completed (polls (n - 1))
        ∧ (polls (n - 1)).status = TaskStatus.completed)
     ∨ (r = WaitOutcome.failed (failedTaskMessage (polls (n - 1)))
        ∧ (polls (n - 1)).status = TaskStatus.failed)
     ∨ (r = WaitOutcome.timedOut (timeoutMessage timeout)
        ∧ timeout ≤ ((n : Nat) : Int) * interval)) :=
  waitForAux_exit_cases polls interval timeout fuel 0 r n h

/-- C3 witness: the never-progressing run with `interval = 1000` and
`timeout = 2000` ends through the timeout exit, with the timeout named in
the error. -/
theorem waitFor_only_three_exits_witness :
    (((WaitOutcome.timedOut "Task timeout after 2000ms" : WaitOutcome Unit)
        = WaitOutcome.completed ((fun _ => pendingTask) (2 - 1))
        ∧ ((fun _ => pendingTask) (2 - 1) : TaskState Unit).status = TaskStatus.completed)
     ∨ ((WaitOutcome.timedOut "Task timeout after 2000ms" : WaitOutcome Unit)
        = WaitOutcome.failed (failedTaskMessage ((fun _ => pendingTask) (2 - 1)))
        ∧ ((fun _ => pendingTask) (2 - 1) : TaskState Unit).status = TaskStatus.failed)
     ∨ ((WaitOutcome.timedOut "Task timeout after 2000ms" : WaitOutcome Unit)
        = WaitOutcome.timedOut (timeoutMessage 2000)
        ∧ (2000 : Int) ≤ ((2 : Nat) : Int) * 1000)) :=
  waitFor_only_three_exits (fun _ => pendingTask) 1000 2000 5
    (WaitOutcome.timedOut "Task timeout after 2000ms") 2 (by decide)

/-- C10: with a non-positive `timeout` the loop guard fails before the first
poll, so `waitFor` throws the timeout error having made zero calls to
`get`. -/
theorem waitFor_nonpositive_timeout {α : Type}
    (polls : Nat → TaskState α) (interval timeout : Int) (fuel : Nat)
    (ht : timeout ≤ 0) (hfuel : 0 < fuel) :
    waitFor polls interval timeout fuel
      = some (WaitOutcome.timedOut (timeoutMessage timeout), 0) := by
  obtain ⟨m, rfl⟩ : ∃ m, fuel = m + 1 := ⟨fuel - 1, by omega⟩
  unfold waitFor
  simp only [waitForAux]
  rw [if_neg (by rw [Nat.cast_zero, zero_mul]; omega)]

/-- C10 witness: `timeout = -250` throws the timeout error with zero polls. -/
theorem waitFor_nonpositive_timeout_witness :
    waitFor (fun _ => pendingTask) 1000 (-250) 3
      = some (WaitOutcome.timedOut (timeoutMessage (-250)), 0) :=
  waitFor_nonpositive_timeout (fun _ => pendingTask) 1000 (-250) 3
    (by decide) (by decide)

/-- A JS value that can occur in the `query` record of `RequestOptions`
(`Record<string, any>` in src/types.ts).  The dispatcher only distinguishes
`null`/`undefined` from everything else, calling `.toString()` on the
rest. -/
inductive JsValue
  | vStr (s : String)
  | vNum (n : Int)
  | vBool (b : Bool)
  | vNull
  | vUndefined
deriving DecidableEq, Repr

/-- JS `value.toString()` on the embedded values (only ever called by the
dispatcher on values that are neither `null` nor `undefined`). -/
def jsToString : JsValue → String
  | JsValue.vStr s => s
  | JsValue.vNum n => toString n
  | JsValue.vBool b => if b then "true" else "false"
  | JsValue.vNull => "null"
  | JsValue.vUndefined => "undefined"

/-- The dispatcher's nullish test `value !== undefined && value !== null`
(negated). -/
def isNullish : JsValue → Bool
  | JsValue.vNull => true
  | JsValue.vUndefined => true
  | _ => false

/-- The query-assembly loop of `Cludz._request` (src/index.ts):
`Object.entries(options.query).forEach(...)` over the entry list in order,
appending `(key, value.toString())` to the URL's search parameters via
`url.searchParams.append` for each non-null, non-undefined entry. -/
def appendQueryParams (params : List (String × String))
    (query : List (String × JsValue)) : List (String × String) :=
  query.foldl
    (fun acc kv => if isNullish kv.2 then acc else acc ++ [(kv.1, jsToString kv.2)])
    params

/-- Unrolling the query-assembly loop: it appends to the accumulator the
non-nullish entries, in order, each rendered with `toString`. -/
theorem appendQueryParams_filterMap :
    ∀ (query : List (String × JsValue)) (params : List (String × String)),
    appendQueryParams params query
      = params ++ query.filterMap
          (fun kv => if isNullish kv.2 then none else some (kv.1, jsToString kv.2)) := by
  intro query
  induction query with
  | nil => intro params; simp [appendQueryParams]
  | cons kv rest ih =>
    intro params
    have hstep : appendQueryParams params (kv :: rest)
        = appendQueryParams
            (if isNullish kv.2 then params else params ++ [(kv.1, jsToString kv.2)])
            rest := rfl
    rw [hstep, ih]
    by_cases h : isNullish kv.2 <;> simp [h, List.filterMap_cons]

/-- C4: the query string the dispatcher builds contains exactly the
non-null, non-undefined entries of the query map, in order, each with its
string representation as the value — nullish entries are omitted. -/
theorem request_query_filters_nullish (query : List (String × JsValue)) :
    appendQueryParams [] query
      = query.filterMap
          (fun kv => if isNullish kv.2 then none else some (kv.1, jsToString kv.2)) := by
  simpa using appendQueryParams_filterMap query []

/-- JS `haystack.includes(needle)` on strings, via a character-list scan. -/
def charsIncludes (pat : List Char) : List Char → Bool
  | [] => pat.isEmpty
  | c :: rest => pat.isPrefixOf (c :: rest) || charsIncludes pat rest

/-- JS `s.includes(pat)`. -/
def jsIncludes (s pat : String) : Bool :=
  charsIncludes pat.data s.data

/-- The dispatcher's binary-payload test on the `content-type` response
header (a missing header is `null` and skips the branch):
`contentType && (contentType.includes("image/") ||
contentType.includes("application/pdf"))`. -/
def contentTypeIsBinary : Option String → Bool
  | some ct => jsIncludes ct "image/" || jsIncludes ct "application/pdf"
  | none => false

/-- The fields of the parsed JSON body that the dispatcher's error path
reads.  Either may be absent from the payload (the body is parsed as
`any`). -/
structure JsonBody where
  message : Option String
  statusMessage : Option String
deriving DecidableEq, Repr

/-- An HTTP response as the dispatcher observes it: status code,
`content-type` header, and (on the JSON path) the parsed body.  Responses
whose body is not valid JSON are outside this model — `response.json()`
would throw before the status check. -/
structure HttpResponse where
  status : Nat
  contentType : Option String
  body : JsonBody
deriving DecidableEq, Repr

/-- The `response.ok` predicate: status in the inclusive range 200–299. -/
def responseOk (status : Nat) : Bool :=
  decide (200 ≤ status) && decide (status < 300)

/-- The dispatcher's error message on a non-ok JSON response:
`data.message || data.statusMessage || "API Error: " + status`. -/
def apiErrorMessage (status : Nat) (body : JsonBody) : String :=
  jsOr body.message (jsOr body.statusMessage ("API Error: " ++ toString status))

/-- What `Cludz._request` produces from a response: the raw `Response`
object (binary branch), the parsed JSON body, or a thrown error. -/
inductive RequestResult
  | raw (resp : HttpResponse)
  | json (body : JsonBody)
  | apiError (msg : String)
deriving DecidableEq, Repr

/-- The response-interpretation tail of `Cludz._request` (src/index.ts):
binary content-types are returned unparsed before any status check;
otherwise the body is parsed and a non-ok status throws. -/
def handleResponse (resp : HttpResponse) : RequestResult :=
  if contentTypeIsBinary resp.contentType then RequestResult.raw resp
  else if !responseOk resp.status then
    RequestResult.apiError (apiErrorMessage resp.status resp.body)
  else RequestResult.json resp.body

/-- The error message exactly as the original claim states it: the body's
`message` field if present, else its `statusMessage` field, else the
generic string.  This follows the claim's words, to be compared against the
code's `apiErrorMessage`. -/
def claimedApiErrorMessage (status : Nat) (body : JsonBody) : String :=
  match body.message with
  | some m => m
  | none =>
    match body.statusMessage with
    | some s => s
    | none => "API Error: " ++ toString status

/-- The error message as amended: the body's `message` field if present and
non-empty, else its `statusMessage` field if present and non-empty, else
the generic string. -/
def specApiErrorMessage (status : Nat) (body : JsonBody) : String :=
  match body.message with
  | some m =>
    if m ≠ "" then m
    else
      match body.statusMessage with
      | some s => if s ≠ "" then s else "API Error: " ++ toString status
      | none => "API Error: " ++ toString status
  | none =>
    match body.statusMessage with
    | some s => if s ≠ "" then s else "API Error: " ++ toString status
    | none => "API Error: " ++ toString status

/-- The code's `||` chain computes the amended-spec error message. -/
theorem apiErrorMessage_eq_spec (status : Nat) (body : JsonBody) :
    apiErrorMessage status body = specApiErrorMessage status body := by
  unfold apiErrorMessage specApiErrorMessage jsOr
  cases body.message with
  | none => cases body.statusMessage with
    | none => rfl
    | some s => by_cases hs : s = "" <;> simp [hs]
  | some m =>
    by_cases hm : m = ""
    · cases body.statusMessage with
      | none => simp [hm]
      | some s => by_cases hs : s = "" <;> simp [hm, hs]
    · simp [hm]

/-- A non-ok JSON response whose `message` field is present but empty, with
a non-empty `statusMessage`. -/
def emptyMessageErrorResponse : HttpResponse :=
  { status := 500, contentType := none,
    body := { message := some "", statusMessage := some "oops" } }

/-- C5 counterexample: on a 500 JSON response with `message = some ""` and
`statusMessage = some "oops"`, the dispatcher throws `"oops"` (JS `||`
skips the empty string), while the claim as stated predicts the present
`message` field, i.e. `""`. -/
theorem request_error_message_cex :
    emptyMessageErrorResponse.body.message = some ""
    ∧ handleResponse emptyMessageErrorResponse = RequestResult.apiError "oops"
    ∧ claimedApiErrorMessage 500 emptyMessageErrorResponse.body = ""
    ∧ ("oops" : String) ≠ "" :=
  ⟨rfl, by decide, rfl, by decide⟩

/-- C5 amended: a response with an image or PDF content-type is returned
raw regardless of HTTP status; otherwise a non-successful status throws
with a message drawn from the body's `message` field if present and
non-empty, else its `statusMessage` field if present and non-empty, else
the generic `"API Error: <status>"`; a successful JSON response yields the
parsed body. -/
theorem request_response_interpretation (resp : HttpResponse) :
    (contentTypeIsBinary resp.contentType = true →
      handleResponse resp = RequestResult.raw resp)
    ∧ (contentTypeIsBinary resp.contentType = false →
        responseOk resp.status = false →
        handleResponse resp
          = RequestResult.apiError (specApiErrorMessage resp.status resp.body))
    ∧ (contentTypeIsBinary resp.contentType = false →
        responseOk resp.status = true →
        handleResponse resp = RequestResult.json resp.body) := by
  refine ⟨fun hb => ?_, fun hb hok => ?_, fun hb hok => ?_⟩
  · simp [handleResponse, hb]
  · simp [handleResponse, hb, hok, apiErrorMessage_eq_spec]
  · simp [handleResponse, hb, hok]

/-- A binary (PNG) response with a failure status code. -/
def binaryErrorResponse : HttpResponse :=
  { status := 404, contentType := some "image/png",
    body := { message := none, statusMessage := none } }

/-- C5 witness: a 404 `image/png` response is returned raw despite its
status, and the 500 JSON response with an empty `message` throws the
amended-spec message. -/
theorem request_response_interpretation_witness :
    handleResponse binaryErrorResponse = RequestResult.raw binaryErrorResponse
    ∧ handleResponse emptyMessageErrorResponse
        = RequestResult.apiError
            (specApiErrorMessage 500 emptyMessageErrorResponse.body) :=
  ⟨(request_response_interpretation binaryErrorResponse).1 (by decide),
   (request_response_interpretation emptyMessageErrorResponse).2.1
     (by decide) (by decide)⟩

/-- The trailing-slash normalization `options.api.replace(/\/$/, "")`: the
(single) trailing `'/'` is removed when present; the regex is anchored and
not global, so only one occurrence is replaced. -/
def stripTrailingSlash (s : String) : String :=
  if s.data.getLast? = some '/' then String.mk s.data.dropLast else s

/-- The `CludzOptions` record (src/types.ts): required base URL, optional API key.
A missing/empty `api` is falsy in `if (!options.api)`. -/
structure CludzOptions where
  api : String
  key : Option String
deriving DecidableEq, Repr

/-- The immutable state of the main client after construction
(src/index.ts): `baseUrl` and optional `key`. -/
structure Cludz where
  baseUrl : String
  key : Option String
deriving DecidableEq, Repr

/-- The `Cludz` constructor (src/index.ts): throws when the base URL is
missing, otherwise stores the slash-stripped base URL and the key. -/
def mkCludz (options : CludzOptions) : Except String Cludz :=
  if options.api = "" then Except.error "API URL is required"
  else Except.ok { baseUrl := stripTrailingSlash options.api, key := options.key }

/-- The `StorageOptions` record: required base URL, container id and token. -/
structure StorageOptions where
  api : String
  id : String
  token : String
deriving DecidableEq, Repr

/-- The immutable state of the storage client after construction
(src/modules/storage.ts). -/
structure Storage where
  api : String
  id : String
  token : String
deriving DecidableEq, Repr

/-- The `Storage` constructor (src/modules/storage.ts): throws when any of
`api`, `id`, `token` is missing, otherwise roots the client at
`<base>/storage/<id>`. -/
def mkStorage (options : StorageOptions) : Except String Storage :=
  if options.api = "" then Except.error "API URL is required"
  else if options.id = "" then Except.error "Storage ID is required"
  else if options.token = "" then Except.error "Token is required"
  else Except.ok
    { api := stripTrailingSlash options.api ++ "/storage/" ++ options.id,
      id := options.id, token := options.token }

/-- Whether an `Except` computation succeeded. -/
def exceptIsOk {ε α : Type} : Except ε α → Bool
  | Except.ok _ => true
  | Except.error _ => false

/-- C6: the main client's construction succeeds exactly when a base URL is
provided, and the storage client's construction succeeds exactly when base
URL, container id and token are all provided — a missing field fails the
constructor (synchronously, there is nothing asynchronous in it). -/
theorem construction_requires_fields :
    (∀ o : CludzOptions, exceptIsOk (mkCludz o) = true ↔ o.api ≠ "")
    ∧ (∀ o : StorageOptions, exceptIsOk (mkStorage o) = true
        ↔ (o.api ≠ "" ∧ o.id ≠ "" ∧ o.token ≠ "")) := by
  constructor
  · intro o
    by_cases h : o.api = "" <;> simp [mkCludz, exceptIsOk, h]
  · intro o
    by_cases h1 : o.api = "" <;> by_cases h2 : o.id = "" <;>
      by_cases h3 : o.token = "" <;> simp [mkStorage, exceptIsOk, h1, h2, h3]

/-- C7 counterexample: a base URL ending in two slashes keeps one of them —
`replace(/\/$/, "")` removes only a single trailing slash, so the stored
base URL can still end with `'/'`. -/
theorem mkCludz_trailing_slash_cex :
    mkCludz { api := "https://a//", key := none }
      = Except.ok { baseUrl := "https://a/", key := none }
    ∧ ("https://a/" : String).data.getLast? = some '/' := by
  constructor
  · rfl
  · decide

/-- C7 amended: construction stores the base URL with a single trailing
slash stripped when one is present; consequently the stored base URL ends
with `'/'` only when the given URL ended with at least two `'/'`
characters. -/
theorem mkCludz_strips_one_trailing_slash (o : CludzOptions) (h : o.api ≠ "") :
    ∃ c, mkCludz o = Except.ok c
      ∧ c.baseUrl = stripTrailingSlash o.api
      ∧ ((stripTrailingSlash o.api).data.getLast? = some '/' →
          o.api.data.getLast? = some '/'
          ∧ o.api.data.dropLast.getLast? = some '/') := by
  refine ⟨{ baseUrl := stripTrailingSlash o.api, key := o.key }, ?_, rfl, ?_⟩
  · simp [mkCludz, h]
  · intro hlast
    unfold stripTrailingSlash at hlast
    by_cases hs : o.api.data.getLast? = some '/'
    · rw [if_pos hs] at hlast
      exact ⟨hs, hlast⟩
    · rw [if_neg hs] at hlast
      exact absurd hlast hs

/-- C7 witness: a concrete URL with a single trailing slash is stored
stripped, and the two-slash condition is vacuously available. -/
theorem mkCludz_strips_one_trailing_slash_witness :
    ∃ c, mkCludz { api := "https://api.cludz.net/", key := none } = Except.ok c
      ∧ c.baseUrl = stripTrailingSlash "https://api.cludz.net/"
      ∧ ((stripTrailingSlash "https://api.cludz.net/").data.getLast? = some '/' →
          ("https://api.cludz.net/" : String).data.getLast? = some '/'
          ∧ ("https://api.cludz.net/" : String).data.dropLast.getLast? = some '/') :=
  mkCludz_strips_one_trailing_slash
    { api := "https://api.cludz.net/", key := none } (by decide)

/-- A filesystem as the resolvers see it: reading a path yields the file's
bytes, or the message of the thrown read error. -/
def Fs : Type := String → Except String (List Nat)

/-- A runtime value passed as an `ImageSource` / `StorageSource`
(`string | Buffer | Blob | File`), plus `other` for any unsupported
runtime value reaching the untyped tail of the resolvers. -/
inductive SourceValue
  | str (s : String)
  | buffer (bytes : List Nat)
  | blob (bytes : List Nat)
  | file (name : String) (bytes : List Nat)
  | other
deriving DecidableEq, Repr

/-- What a resolver produces for the outgoing form-data payload: a URL
string passed through, a `Blob` with the given bytes, or a named `File`. -/
inductive ResolvedSource
  | urlStr (s : String)
  | blob (bytes : List Nat)
  | file (name : String) (bytes : List Nat)
deriving DecidableEq, Repr

/-- JS `s.startsWith(pat)`. -/
def jsStartsWith (s pat : String) : Bool :=
  pat.data.isPrefixOf s.data

/-- The resolver `Image.resolveImage` (src/modules/image.ts), with the
environment-dependent read (`Bun.file(...).blob()` vs `readFile` into a
`Blob`) collapsed to one filesystem read: http(s)-prefixed strings pass
through unchanged; any other string is treated as a local path and read
into a `Blob`; `Blob`/`File` pass through; a `Buffer` is wrapped into a
`Blob` with the same bytes; anything else throws the invalid-source
error. -/
def resolveImage (fs : Fs) : SourceValue → Except String ResolvedSource
  | SourceValue.str s =>
    if jsStartsWith s "http://" || jsStartsWith s "https://" then
      Except.ok (ResolvedSource.urlStr s)
    else
      match fs s with
      | Except.ok bytes => Except.ok (ResolvedSource.blob bytes)
      | Except.error e => Except.error ("Failed to read local image path: " ++ e)
  | SourceValue.blob b => Except.ok (ResolvedSource.blob b)
  | SourceValue.file n b => Except.ok (ResolvedSource.file n b)
  | SourceValue.buffer b => Except.ok (ResolvedSource.blob b)
  | SourceValue.other =>
    Except.error
      "Invalid image source type. Supported: URL string, local path string, Buffer, or Blob/File."

/-- The control flow of the `Image` module's operations (`meme`,
`compress`, `convert`, `crop`): resolve the source first — a resolution
error propagates before any network call — then make exactly one
`_request`.  The second component counts the `_request` calls made. -/
def imageOperation (fs : Fs) (source : SourceValue) :
    Except String ResolvedSource × Nat :=
  match resolveImage fs source with
  | Except.error e => (Except.error e, 0)
  | Except.ok img => (Except.ok img, 1)

/-- C8: Image-module source resolution — http(s) strings pass through
unchanged, any other string is read from the local filesystem (throwing a
read error when unreadable), buffers and blob/file handles pass through as
byte payloads, and an unsupported value throws the invalid-source-type
error with zero network calls made. -/
theorem image_source_resolution (fs : Fs) :
    (∀ s, (jsStartsWith s "http://" || jsStartsWith s "https://") = true →
      resolveImage fs (SourceValue.str s) = Except.ok (ResolvedSource.urlStr s))
    ∧ (∀ s bytes, (jsStartsWith s "http://" || jsStartsWith s "https://") = false →
        fs s = Except.ok bytes →
        resolveImage fs (SourceValue.str s) = Except.ok (ResolvedSource.blob bytes))
    ∧ (∀ s e, (jsStartsWith s "http://" || jsStartsWith s "https://") = false →
        fs s = Except.error e →
        resolveImage fs (SourceValue.str s)
          = Except.error ("Failed to read local image path: " ++ e))
    ∧ (∀ b, resolveImage fs (SourceValue.buffer b)
        = Except.ok (ResolvedSource.blob b))
    ∧ (∀ b, resolveImage fs (SourceValue.blob b)
        = Except.ok (ResolvedSource.blob b))
    ∧ (∀ n b, resolveImage fs (SourceValue.file n b)
        = Except.ok (ResolvedSource.file n b))
    ∧ imageOperation fs SourceValue.other
        = (Except.error
            "Invalid image source type. Supported: URL string, local path string, Buffer, or Blob/File.",
           0) := by
  refine ⟨fun s h => ?_, fun s bytes h hf => ?_, fun s e h hf => ?_,
    fun b => rfl, fun b => rfl, fun n b => rfl, rfl⟩
  · simp [resolveImage, h]
  · simp [resolveImage, h, hf]
  · simp [resolveImage, h, hf]

/-- A sample filesystem holding one readable image file. -/
def sampleImageFs : Fs :=
  fun p => if p = "cat.png" then Except.ok [137, 80] else Except.error "ENOENT"

/-- C8 witness: a URL string passes through untouched, a readable path
resolves to its bytes, and an unreadable path throws the read error. -/
theorem image_source_resolution_witness :
    resolveImage sampleImageFs (SourceValue.str "https://a/cat.png")
      = Except.ok (ResolvedSource.urlStr "https://a/cat.png")
    ∧ resolveImage sampleImageFs (SourceValue.str "cat.png")
        = Except.ok (ResolvedSource.blob [137, 80])
    ∧ resolveImage sampleImageFs (SourceValue.str "dog.png")
        = Except.error ("Failed to read local image path: " ++ "ENOENT") :=
  ⟨(image_source_resolution sampleImageFs).1 "https://a/cat.png" (by decide),
   (image_source_resolution sampleImageFs).2.1 "cat.png" [137, 80]
     (by decide) rfl,
   (image_source_resolution sampleImageFs).2.2.1 "dog.png" "ENOENT"
     (by decide) rfl⟩

/-- JS `path.split(/[\\/]/).pop() || "file"`: the characters after the
last path separator, falling back to `"file"` when that final segment is
empty. -/
def lastPathSegment (path : String) : String :=
  let seg := path.data.foldl
    (fun acc c => if c = '/' ∨ c = '\\' then [] else acc ++ [c]) []
  if seg.isEmpty then "file" else String.mk seg

/-- The upload name `Storage.resolveFile` chooses on the filesystem-read
path: the explicit `fileName` when one was given (i.e. it differs from the
default `"file"`), else the base name of the path. -/
def resolvedFileName (path fileName : String) : String :=
  if fileName = "file" then lastPathSegment path else fileName

/-- The resolver `Storage.resolveFile` (src/modules/storage.ts), with the
environment-dependent read (`Bun.file(...)` vs `readFile` into a `File`)
collapsed to one filesystem read: every string is treated as a local path
and read from disk — there is no URL branch; `Blob`/`File` pass through;
a `Buffer` is wrapped into a `Blob`; anything else throws the
invalid-source error. -/
def resolveFile (fs : Fs) (fileName : String) :
    SourceValue → Except String ResolvedSource
  | SourceValue.str s =>
    match fs s with
    | Except.ok bytes =>
        Except.ok (ResolvedSource.file (resolvedFileName s fileName) bytes)
    | Except.error e => Except.error ("Failed to read local file path: " ++ e)
  | SourceValue.blob b => Except.ok (ResolvedSource.blob b)
  | SourceValue.file n b => Except.ok (ResolvedSource.file n b)
  | SourceValue.buffer b => Except.ok (ResolvedSource.blob b)
  | SourceValue.other =>
    Except.error
      "Invalid file source type. Supported: local path string, Buffer, or Blob/File."

/-- The control flow of `Storage.upload`: resolve the source first — a
resolution error propagates before any network call — then make exactly
one `fetch`.  The second component counts the network calls made. -/
def uploadOperation (fs : Fs) (fileName : String) (source : SourceValue) :
    Except String ResolvedSource × Nat :=
  match resolveFile fs fileName source with
  | Except.error e => (Except.error e, 0)
  | Except.ok f => (Except.ok f, 1)

/-- C9: Storage-client source resolution — every string, including one
starting with `http://` or `https://`, is treated as a local filesystem
path and read into bytes (throwing a read error when unreadable); buffers
and blob/file handles pass through; an unsupported value throws the
invalid-source-type error with zero network calls made. -/
theorem storage_source_resolution (fs : Fs) (fileName : String) :
    (∀ s bytes, fs s = Except.ok bytes →
      resolveFile fs fileName (SourceValue.str s)
        = Except.ok (ResolvedSource.file (resolvedFileName s fileName) bytes))
    ∧ (∀ s e, fs s = Except.error e →
        resolveFile fs fileName (SourceValue.str s)
          = Except.error ("Failed to read local file path: " ++ e))
    ∧ (∀ b, resolveFile fs fileName (SourceValue.buffer b)
        = Except.ok (ResolvedSource.blob b))
    ∧ (∀ b, resolveFile fs fileName (SourceValue.blob b)
        = Except.ok (ResolvedSource.blob b))
    ∧ (∀ n b, resolveFile fs fileName (SourceValue.file n b)
        = Except.ok (ResolvedSource.file n b))
    ∧ uploadOperation fs fileName SourceValue.other
        = (Except.error
            "Invalid file source type. Supported: local path string, Buffer, or Blob/File.",
           0) := by
  refine ⟨fun s bytes hf => ?_, fun s e hf => ?_,
    fun b => rfl, fun b => rfl, fun n b => rfl, rfl⟩
  · simp [resolveFile, hf]
  · simp [resolveFile, hf]

/-- A sample filesystem in which an http(s)-looking string is a readable
local path — Storage still reads it from disk rather than passing it
through as a URL. -/
def sampleStorageFs : Fs :=
  fun p => if p = "https://example.com/x.txt" then Except.ok [104, 105]
    else Except.error "ENOENT"

/-- C9 witness: even an `https://` string is read from the local
filesystem, and an unreadable path throws the read error. -/
theorem storage_source_resolution_witness :
    resolveFile sampleStorageFs "file" (SourceValue.str "https://example.com/x.txt")
      = Except.ok (ResolvedSource.file
          (resolvedFileName "https://example.com/x.txt" "file") [104, 105])
    ∧ resolveFile sampleStorageFs "file" (SourceValue.str "notes.txt")
        = Except.error ("Failed to read local file path: " ++ "ENOENT") :=
  ⟨(storage_source_resolution sampleStorageFs "file").1
     "https://example.com/x.txt" [104, 105] rfl,
   (storage_source_resolution sampleStorageFs "file").2.1
     "notes.txt" "ENOENT" rfl⟩

end CludzSDK
